import Mathlib

/-!
Shallow embedding of `boxing/boxing/models/boxers_model.py`.

The module is a data-access layer over a single sqlite table
`boxers (id, name, weight, height, reach, age, fights, wins)`.
We model the store as a list of rows plus the next rowid to be assigned,
and each Python function as a pure function from the store (and its
arguments) to `Except Err` of its result; raising an exception in Python
corresponds to returning `.error`, in which case the store is unchanged
(the caller keeps the old store).

Modelling choices:
* `reach` is a Python float used only in comparisons against 0 and
  round-tripping; we model it as `ℚ`.
* every `raise ValueError(...)` site gets its own `Err` constructor
  carrying the values interpolated into its message, so distinct
  messages map to distinct errors and equal messages to equal errors
  (`create_boxer`'s pre-check error and its `IntegrityError` translation
  both raise `ValueError(f"Boxer with name '{name}' already exists")`,
  hence both map to `Err.alreadyExists name`);
* sqlite's `ORDER BY <key> DESC` is modelled as a sort by the key,
  descending (`List.insertionSort` with the ≥-by-key relation);
* `round(x, 1)` on the float `wins * 1.0 / fights` is modelled as exact
  rational arithmetic rounded to one decimal digit.
-/

/-- Errors escaping the sqlite layer (`sqlite3.IntegrityError` is a
subclass of `sqlite3.Error`; other subclasses are collapsed into
`operationalError` with an opaque payload). -/
inductive SqliteErr where
  | integrityError
  | operationalError (msg : String)
deriving Repr, DecidableEq

/-- One error per `raise` site of `boxers_model.py`, carrying the values
interpolated into the raised `ValueError`'s message, plus propagated
sqlite errors. -/
inductive Err where
  /-- `create_boxer`: "Invalid weight: {weight}. Must be at least 125." -/
  | invalidWeight (weight : Int)
  /-- `create_boxer`: "Invalid height: {height}. Must be greater than 0." -/
  | invalidHeight (height : Int)
  /-- `create_boxer`: "Invalid reach: {reach}. Must be greater than 0." -/
  | invalidReach (reach : ℚ)
  /-- `create_boxer`: "Invalid age: {age}. Must be between 18 and 40." -/
  | invalidAge (age : Int)
  /-- `create_boxer` (pre-check and `IntegrityError` translation):
  "Boxer with name '{name}' already exists" -/
  | alreadyExists (name : String)
  /-- `delete_boxer` / `get_boxer_by_id` / `update_boxer_stats`:
  "Boxer with ID {boxer_id} not found." -/
  | idNotFound (boxer_id : Nat)
  /-- `get_boxer_by_name`: "Boxer '{boxer_name}' not found." -/
  | nameNotFound (name : String)
  /-- `get_weight_class`: "Invalid weight: {weight}. Weight must be at
  least 125." -/
  | invalidWeightClass (weight : Int)
  /-- `get_leaderboard`: "Invalid sort_by parameter: {sort_by}" -/
  | invalidSortBy (sort_by : String)
  /-- `update_boxer_stats`: "Invalid result: {result}. Expected 'win' or 'loss'." -/
  | invalidResult (result : String)
  /-- an `sqlite3.Error` re-raised unchanged -/
  | sqliteError (e : SqliteErr)
deriving Repr, DecidableEq

/-- One row of the `boxers` table. -/
structure BoxerRow where
  id : Nat
  name : String
  weight : Int
  height : Int
  reach : ℚ
  age : Int
  fights : Int
  wins : Int
deriving Repr, DecidableEq

/-- The store: the rows of the `boxers` table plus the next rowid sqlite
will assign (sqlite rowids start at 1). -/
structure Db where
  rows : List BoxerRow
  nextId : Nat
deriving Repr, DecidableEq

/-- The empty store. -/
def Db.empty : Db := ⟨[], 1⟩

/-- `get_weight_class(weight)`, lines 247-272. -/
def get_weight_class (weight : Int) : Except Err String :=
  if weight ≥ 203 then .ok "HEAVYWEIGHT"
  else if weight ≥ 166 then .ok "MIDDLEWEIGHT"
  else if weight ≥ 133 then .ok "LIGHTWEIGHT"
  else if weight ≥ 125 then .ok "FEATHERWEIGHT"
  else .error (.invalidWeightClass weight)

/-- The `Boxer` dataclass: `__post_init__` overwrites `weight_class`
with `get_weight_class(self.weight)`, so construction itself can raise. -/
structure Boxer where
  id : Nat
  name : String
  weight : Int
  height : Int
  reach : ℚ
  age : Int
  weight_class : String
deriving Repr, DecidableEq

/-- `Boxer(id=..., name=..., weight=..., height=..., reach=..., age=...)`:
the dataclass constructor followed by `__post_init__` (lines 14-25). -/
def Boxer.make (id : Nat) (name : String) (weight : Int) (height : Int)
    (reach : ℚ) (age : Int) : Except Err Boxer := do
  let wc ← get_weight_class weight
  .ok ⟨id, name, weight, height, reach, age, wc⟩

/-- `create_boxer(name, weight, height, reach, age)`, lines 28-80, on the
path where the sqlite statements themselves succeed.  Validations run in
source order before any storage access; then the pre-insert uniqueness
lookup; then the `INSERT`, which appends a row with `fights = wins = 0`
(the table defaults) and the next rowid. -/
def create_boxer (db : Db) (name : String) (weight : Int) (height : Int)
    (reach : ℚ) (age : Int) : Except Err Db :=
  if weight < 125 then .error (.invalidWeight weight)
  else if height ≤ 0 then .error (.invalidHeight height)
  else if reach ≤ 0 then .error (.invalidReach reach)
  else if ¬ (18 ≤ age ∧ age ≤ 40) then .error (.invalidAge age)
  else if db.rows.any (fun r => decide (r.name = name)) then
    .error (.alreadyExists name)
  else
    .ok ⟨db.rows ++ [⟨db.nextId, name, weight, height, reach, age, 0, 0⟩],
         db.nextId + 1⟩

/-- The `except` clauses of `create_boxer`, lines 76-80: an
`sqlite3.IntegrityError` raised by the insert (the pre-check/insert race)
is translated into the same "already exists" `ValueError` as the
pre-check; any other `sqlite3.Error` is re-raised unchanged. -/
def create_boxer_except (name : String) (e : SqliteErr) : Err :=
  match e with
  | .integrityError => .alreadyExists name
  | e => .sqliteError e

/-- `delete_boxer(boxer_id)`, lines 83-110: `SELECT id` existence check,
then `DELETE FROM boxers WHERE id = ?` and commit. -/
def delete_boxer (db : Db) (boxer_id : Nat) : Except Err Db :=
  if db.rows.any (fun r => decide (r.id = boxer_id)) then
    .ok ⟨db.rows.filter (fun r => decide (¬ r.id = boxer_id)), db.nextId⟩
  else
    .error (.idNotFound boxer_id)

/-- `get_boxer_by_id(boxer_id)`, lines 170-206: fetch the row, build a
`Boxer` (whose `__post_init__` recomputes the weight class) or raise
not-found. -/
def get_boxer_by_id (db : Db) (boxer_id : Nat) : Except Err Boxer :=
  match db.rows.find? (fun r => decide (r.id = boxer_id)) with
  | some r => Boxer.make r.id r.name r.weight r.height r.reach r.age
  | none => .error (.idNotFound boxer_id)

/-- `get_boxer_by_name(boxer_name)`, lines 209-244. -/
def get_boxer_by_name (db : Db) (boxer_name : String) : Except Err Boxer :=
  match db.rows.find? (fun r => decide (r.name = boxer_name)) with
  | some r => Boxer.make r.id r.name r.weight r.height r.reach r.age
  | none => .error (.nameNotFound boxer_name)

/-- `update_boxer_stats(boxer_id, result)`, lines 275-311: result
validation, existence check, then the `UPDATE` hitting every row whose
id matches. -/
def update_boxer_stats (db : Db) (boxer_id : Nat) (result : String) :
    Except Err Db :=
  if ¬ (result = "win" ∨ result = "loss") then
    .error (.invalidResult result)
  else if db.rows.any (fun r => decide (r.id = boxer_id)) then
    if result = "win" then
      .ok ⟨db.rows.map (fun r =>
            if r.id = boxer_id then
              { r with fights := r.fights + 1, wins := r.wins + 1 }
            else r),
           db.nextId⟩
    else
      .ok ⟨db.rows.map (fun r =>
            if r.id = boxer_id then { r with fights := r.fights + 1 } else r),
           db.nextId⟩
  else
    .error (.idNotFound boxer_id)

/-- `wins * 1.0 / fights` (the `win_pct` column of the leaderboard query). -/
def winPct (r : BoxerRow) : ℚ := (r.wins : ℚ) / (r.fights : ℚ)

/-- `round(x, 1)`: round to one decimal digit. -/
def round1 (q : ℚ) : ℚ := (round (q * 10) : ℤ) / 10

/-- One dictionary of the leaderboard list (lines 150-161). -/
structure LeaderboardEntry where
  id : Nat
  name : String
  weight : Int
  height : Int
  reach : ℚ
  age : Int
  weight_class : String
  fights : Int
  wins : Int
  win_pct : ℚ
deriving Repr, DecidableEq

/-- The body of the `for row in rows` loop of `get_leaderboard`: one
dictionary per row; `get_weight_class(row[2])` can raise. -/
def mkEntry (r : BoxerRow) : Except Err LeaderboardEntry :=
  match get_weight_class r.weight with
  | .error e => .error e
  | .ok wc =>
    .ok ⟨r.id, r.name, r.weight, r.height, r.reach, r.age, wc, r.fights,
         r.wins, round1 (winPct r * 100)⟩

/-- The whole `for` loop of `get_leaderboard`, in row order. -/
def buildEntries : List BoxerRow → Except Err (List LeaderboardEntry)
  | [] => .ok []
  | r :: rs =>
    match mkEntry r with
    | .error e => .error e
    | .ok e =>
      match buildEntries rs with
      | .error e2 => .error e2
      | .ok es => .ok (e :: es)

/-- `ORDER BY <key> DESC`: `b` may follow `a` when `key b ≤ key a`. -/
def descBy (key : BoxerRow → ℚ) : BoxerRow → BoxerRow → Prop :=
  fun a b => key b ≤ key a

instance (key : BoxerRow → ℚ) : DecidableRel (descBy key) :=
  fun a b => inferInstanceAs (Decidable (key b ≤ key a))

/-- `get_leaderboard(sort_by)`, lines 113-167: the `sort_by` check runs
while the query string is being built, before any storage access; the
query keeps the rows with `fights > 0`, orders them descending by the
chosen metric, and the loop turns each row into a dictionary. -/
def get_leaderboard (db : Db) (sort_by : String) :
    Except Err (List LeaderboardEntry) :=
  if ¬ (sort_by = "win_pct" ∨ sort_by = "wins") then
    .error (.invalidSortBy sort_by)
  else if sort_by = "win_pct" then
    buildEntries ((db.rows.filter (fun r => decide (0 < r.fights))).insertionSort
      (descBy winPct))
  else
    buildEntries ((db.rows.filter (fun r => decide (0 < r.fights))).insertionSort
      (descBy (fun r => (r.wins : ℚ))))

/-- Stores reachable from the empty store by the mutating operations
(`create_boxer`, `delete_boxer`, `update_boxer_stats`); a failed call
leaves the store unchanged, so only successful calls step. -/
inductive Reachable : Db → Prop where
  | empty : Reachable Db.empty
  | create {db db' : Db} {name : String} {weight height : Int} {reach : ℚ}
      {age : Int} : Reachable db →
      create_boxer db name weight height reach age = .ok db' → Reachable db'
  | delete {db db' : Db} {boxer_id : Nat} : Reachable db →
      delete_boxer db boxer_id = .ok db' → Reachable db'
  | update {db db' : Db} {boxer_id : Nat} {result : String} : Reachable db →
      update_boxer_stats db boxer_id result = .ok db' → Reachable db'

/-- C1: for every integer weight, `get_weight_class` returns
`HEAVYWEIGHT` exactly when weight ≥ 203, `MIDDLEWEIGHT` exactly when
166 ≤ weight ≤ 202, `LIGHTWEIGHT` exactly when 133 ≤ weight ≤ 165,
`FEATHERWEIGHT` exactly when 125 ≤ weight ≤ 132, and fails with the
invalid-weight validation error exactly when weight < 125; in
particular every weight ≥ 125 succeeds with exactly one of the four
bands, with no gaps. -/
theorem c1_get_weight_class_bands (w : Int) :
    (get_weight_class w = .ok "HEAVYWEIGHT" ↔ 203 ≤ w)
  ∧ (get_weight_class w = .ok "MIDDLEWEIGHT" ↔ 166 ≤ w ∧ w ≤ 202)
  ∧ (get_weight_class w = .ok "LIGHTWEIGHT" ↔ 133 ≤ w ∧ w ≤ 165)
  ∧ (get_weight_class w = .ok "FEATHERWEIGHT" ↔ 125 ≤ w ∧ w ≤ 132)
  ∧ (get_weight_class w = .error (.invalidWeightClass w) ↔ w < 125)
  ∧ ((∃ s, get_weight_class w = .ok s) ↔ 125 ≤ w) := by
  unfold get_weight_class
  split_ifs with h1 h2 h3 h4 <;>
    refine ⟨?_, ?_, ?_, ?_, ?_, ?_⟩ <;>
    simp_all <;> omega

/-- C4: `create_boxer` fails with the validation error naming the
violated constraint if and only if weight < 125, height ≤ 0, reach ≤ 0,
or age lies outside [18, 40], the checks running in source order; some
validation error is raised exactly when one of the four conditions
holds (so weight = 124 fails and weight = 125 passes the weight check),
and on any such input the result does not depend on the store: the
checks precede any storage access, so a validation failure leaves the
store unchanged. -/
theorem c4_create_boxer_validation (db db2 : Db) (name : String)
    (w h : Int) (rch : ℚ) (a : Int) :
    (create_boxer db name w h rch a = .error (.invalidWeight w) ↔ w < 125)
  ∧ (create_boxer db name w h rch a = .error (.invalidHeight h) ↔
      125 ≤ w ∧ h ≤ 0)
  ∧ (create_boxer db name w h rch a = .error (.invalidReach rch) ↔
      125 ≤ w ∧ 0 < h ∧ rch ≤ 0)
  ∧ (create_boxer db name w h rch a = .error (.invalidAge a) ↔
      125 ≤ w ∧ 0 < h ∧ 0 < rch ∧ (a < 18 ∨ 40 < a))
  ∧ ((create_boxer db name w h rch a = .error (.invalidWeight w)
      ∨ create_boxer db name w h rch a = .error (.invalidHeight h)
      ∨ create_boxer db name w h rch a = .error (.invalidReach rch)
      ∨ create_boxer db name w h rch a = .error (.invalidAge a))
      ↔ (w < 125 ∨ h ≤ 0 ∨ rch ≤ 0 ∨ a < 18 ∨ 40 < a))
  ∧ ((w < 125 ∨ h ≤ 0 ∨ rch ≤ 0 ∨ a < 18 ∨ 40 < a) →
      create_boxer db name w h rch a = create_boxer db2 name w h rch a) := by
  unfold create_boxer
  split_ifs with h1 h2 h3 h4 h5 <;>
    refine ⟨?_, ?_, ?_, ?_, ?_, ?_⟩ <;>
    simp_all <;> try omega

/-- A sample stored row used by the concrete witnesses below. -/
def sampleRow : BoxerRow := ⟨1, "Ali", 150, 70, 72, 30, 0, 0⟩

/-- A sample store holding just `sampleRow` (next rowid 2). -/
def sampleDb : Db := ⟨[sampleRow], 2⟩

/-- Shape of a successful `create_boxer` call: the validations passed,
no stored row had the name, and the new store is the old rows plus the
freshly inserted row with `fights = wins = 0`. -/
theorem create_boxer_ok_shape {db db' : Db} {name : String} {w h : Int}
    {rch : ℚ} {a : Int}
    (hc : create_boxer db name w h rch a = .ok db') :
    db'.rows = db.rows ++ [⟨db.nextId, name, w, h, rch, a, 0, 0⟩]
  ∧ db'.nextId = db.nextId + 1
  ∧ 125 ≤ w
  ∧ (∀ r ∈ db.rows, r.name ≠ name) := by
  unfold create_boxer at hc
  split_ifs at hc with h1 h2 h3 h4 h5
  simp_all
  subst hc
  exact ⟨rfl, rfl⟩

/-- C2: with a stored row of id `i` present, `update_boxer_stats` on
"win" succeeds and the store now holds that row with both fights and
wins incremented by one (one transaction); on "loss" it holds that row
with fights incremented and wins unchanged; a result outside
{"win", "loss"} fails with the invalid-result validation error; and a
valid result on an id `j` matching no row fails with not-found. -/
theorem c2_update_boxer_stats (db : Db) (i j : Nat) (row : BoxerRow)
    (res : String)
    (hmem : row ∈ db.rows) (hid : row.id = i)
    (hres : ¬ (res = "win" ∨ res = "loss"))
    (hj : ∀ r ∈ db.rows, r.id ≠ j) :
    (∃ db', update_boxer_stats db i "win" = .ok db'
        ∧ { row with fights := row.fights + 1, wins := row.wins + 1 } ∈
            db'.rows
        ∧ db'.nextId = db.nextId)
  ∧ (∃ db', update_boxer_stats db i "loss" = .ok db'
        ∧ { row with fights := row.fights + 1 } ∈ db'.rows
        ∧ db'.nextId = db.nextId)
  ∧ update_boxer_stats db i res = .error (.invalidResult res)
  ∧ update_boxer_stats db j "win" = .error (.idNotFound j) := by
  have hany : db.rows.any (fun r => decide (r.id = i)) = true := by
    rw [List.any_eq_true]
    exact ⟨row, hmem, by simp [hid]⟩
  have hanyj : db.rows.any (fun r => decide (r.id = j)) = false := by
    rw [List.any_eq_false]
    intro r hr
    simpa using hj r hr
  refine ⟨⟨⟨db.rows.map (fun r =>
        if r.id = i then
          { r with fights := r.fights + 1, wins := r.wins + 1 }
        else r), db.nextId⟩, ?_, ?_, rfl⟩,
      ⟨⟨db.rows.map (fun r =>
        if r.id = i then { r with fights := r.fights + 1 } else r),
        db.nextId⟩, ?_, ?_, rfl⟩, ?_, ?_⟩
  · simp [update_boxer_stats, hany]
  · exact List.mem_map.mpr ⟨row, hmem, by simp [hid]⟩
  · simp [update_boxer_stats, hany]
  · exact List.mem_map.mpr ⟨row, hmem, by simp [hid]⟩
  · simp [update_boxer_stats, hres]
  · simp [update_boxer_stats, hanyj]

/-- Witness for C2 on the sample store: id 1 exists, id 2 does not,
"draw" is an invalid result. -/
theorem c2_update_boxer_stats_witness :
    (∃ db', update_boxer_stats sampleDb 1 "win" = .ok db'
        ∧ { sampleRow with fights := sampleRow.fights + 1, wins := sampleRow.wins + 1 } ∈ db'.rows
        ∧ db'.nextId = sampleDb.nextId)
  ∧ (∃ db', update_boxer_stats sampleDb 1 "loss" = .ok db'
        ∧ { sampleRow with fights := sampleRow.fights + 1 } ∈ db'.rows
        ∧ db'.nextId = sampleDb.nextId)
  ∧ update_boxer_stats sampleDb 1 "draw" = .error (.invalidResult "draw")
  ∧ update_boxer_stats sampleDb 2 "win" = .error (.idNotFound 2) :=
  c2_update_boxer_stats sampleDb 1 2 sampleRow "draw"
    (by simp [sampleDb]) rfl (by decide) (by decide)

/-- C9: `delete_boxer` fails with not-found when no row has the id;
when a row has the id it succeeds, the remaining rows are exactly the
stored rows whose id differs, a second delete of the same id fails with
not-found, and fetching the id afterwards fails with not-found; and
after a successful create, deleting the new row's id succeeds and then
fetching that id fails with not-found. -/
theorem c9_delete_boxer (db : Db) (i : Nat) :
    ((∀ r ∈ db.rows, r.id ≠ i) →
      delete_boxer db i = .error (.idNotFound i))
  ∧ (∀ row ∈ db.rows, row.id = i →
      ∃ db', delete_boxer db i = .ok db'
        ∧ db'.nextId = db.nextId
        ∧ (∀ r ∈ db'.rows, r ∈ db.rows ∧ r.id ≠ i)
        ∧ (∀ r ∈ db.rows, r.id ≠ i → r ∈ db'.rows)
        ∧ delete_boxer db' i = .error (.idNotFound i)
        ∧ get_boxer_by_id db' i = .error (.idNotFound i))
  ∧ (∀ (name : String) (w h : Int) (rch : ℚ) (a : Int) (db₁ : Db),
      create_boxer db name w h rch a = .ok db₁ →
      ∃ db₂, delete_boxer db₁ db.nextId = .ok db₂
        ∧ get_boxer_by_id db₂ db.nextId = .error (.idNotFound db.nextId)) := by
  refine ⟨?_, ?_, ?_⟩
  · intro hni
    have hany : db.rows.any (fun r => decide (r.id = i)) = false := by
      rw [List.any_eq_false]
      intro r hr
      simpa using hni r hr
    simp [delete_boxer, hany]
  · intro row hmem hid
    have hany : db.rows.any (fun r => decide (r.id = i)) = true := by
      rw [List.any_eq_true]
      exact ⟨row, hmem, by simp [hid]⟩
    refine ⟨⟨db.rows.filter (fun r => decide (¬ r.id = i)), db.nextId⟩,
      ?_, rfl, ?_, ?_, ?_, ?_⟩
    · simp [delete_boxer, hany]
    · intro r hr
      simpa using List.mem_filter.mp hr
    · intro r hr hne
      exact List.mem_filter.mpr ⟨hr, by simpa using hne⟩
    · have hany2 : (db.rows.filter (fun r => decide (¬ r.id = i))).any
          (fun r => decide (r.id = i)) = false := by
        rw [List.any_eq_false]
        intro r hr
        simpa using (List.mem_filter.mp hr).2
      simp [delete_boxer, hany2]
    · have hfind : (db.rows.filter (fun r => decide (¬ r.id = i))).find?
          (fun r => decide (r.id = i)) = none := by
        rw [List.find?_eq_none]
        intro r hr
        simpa using (List.mem_filter.mp hr).2
      simp only [get_boxer_by_id]
      rw [hfind]
  · intro name w h rch a db₁ hc
    obtain ⟨hrows, hnext, hw, hnames⟩ := create_boxer_ok_shape hc
    have hmem : (⟨db.nextId, name, w, h, rch, a, 0, 0⟩ : BoxerRow) ∈
        db₁.rows := by
      rw [hrows]
      simp
    have hany : db₁.rows.any (fun r => decide (r.id = db.nextId)) = true := by
      rw [List.any_eq_true]
      exact ⟨_, hmem, by simp⟩
    refine ⟨⟨db₁.rows.filter (fun r => decide (¬ r.id = db.nextId)),
      db₁.nextId⟩, ?_, ?_⟩
    · simp [delete_boxer, hany]
    · have hfind : (db₁.rows.filter (fun r => decide (¬ r.id = db.nextId))).find?
          (fun r => decide (r.id = db.nextId)) = none := by
        rw [List.find?_eq_none]
        intro r hr
        simpa using (List.mem_filter.mp hr).2
      simp only [get_boxer_by_id]
      rw [hfind]

/-- Shape of a successful `delete_boxer` call: the surviving rows are
the stored rows whose id differs. -/
theorem delete_boxer_ok_shape {db db' : Db} {i : Nat}
    (hc : delete_boxer db i = .ok db') :
    db'.rows = db.rows.filter (fun r => decide (¬ r.id = i))
  ∧ db'.nextId = db.nextId := by
  unfold delete_boxer at hc
  split_ifs at hc with h1
  rw [Except.ok.injEq] at hc
  subst hc
  exact ⟨rfl, rfl⟩

/-- Shape of a successful `update_boxer_stats` call: every row keeps its
id, and the rows with the given id either get both fights and wins
incremented (result "win") or just fights (result "loss"). -/
theorem update_boxer_stats_ok_shape {db db' : Db} {i : Nat} {res : String}
    (hc : update_boxer_stats db i res = .ok db') :
    (db'.rows = db.rows.map (fun r =>
        if r.id = i then
          { r with fights := r.fights + 1, wins := r.wins + 1 }
        else r)
      ∨ db'.rows = db.rows.map (fun r =>
        if r.id = i then { r with fights := r.fights + 1 } else r))
  ∧ db'.nextId = db.nextId := by
  unfold update_boxer_stats at hc
  split_ifs at hc with h1 h2 h3
  · rw [Except.ok.injEq] at hc
    subst hc
    exact ⟨Or.inl rfl, rfl⟩
  · rw [Except.ok.injEq] at hc
    subst hc
    exact ⟨Or.inr rfl, rfl⟩

/-- C3: every store reachable from the empty store by any sequence of
`create_boxer`, `delete_boxer` and `update_boxer_stats` calls satisfies
wins ≤ fights in every row: creation starts both counters at 0 and no
operation increments wins without also incrementing fights. -/
theorem c3_wins_le_fights {db : Db} (h : Reachable db) :
    ∀ r ∈ db.rows, r.wins ≤ r.fights := by
  induction h with
  | empty => simp [Db.empty]
  | create hdb hc ih =>
    obtain ⟨hrows, -, -, -⟩ := create_boxer_ok_shape hc
    intro r hr
    rw [hrows] at hr
    rcases List.mem_append.mp hr with h1 | h1
    · exact ih r h1
    · simp only [List.mem_singleton] at h1
      subst h1
      simp
  | delete hdb hc ih =>
    obtain ⟨hrows, -⟩ := delete_boxer_ok_shape hc
    intro r hr
    rw [hrows] at hr
    exact ih r (List.mem_filter.mp hr).1
  | update hdb hc ih =>
    obtain ⟨hrows | hrows, -⟩ := update_boxer_stats_ok_shape hc <;>
    · intro r hr
      rw [hrows] at hr
      obtain ⟨s, hs, rfl⟩ := List.mem_map.mp hr
      have hle := ih s hs
      split_ifs <;> simp <;> omega

/-- Witness for C3: the store obtained by one successful create is
reachable and satisfies the invariant. -/
theorem c3_wins_le_fights_witness :
    sampleDb.rows.all (fun r => decide (r.wins ≤ r.fights)) = true := by
  have hre : Reachable sampleDb :=
    @Reachable.create Db.empty sampleDb "Ali" 150 70 72 30
      Reachable.empty rfl
  rw [List.all_eq_true]
  intro r hr
  simpa using c3_wins_le_fights hre r hr

/-- Witness for C1 at weight 150 (a LIGHTWEIGHT). -/
theorem c1_get_weight_class_bands_witness :
    (get_weight_class 150 = .ok "HEAVYWEIGHT" ↔ 203 ≤ (150 : Int))
  ∧ (get_weight_class 150 = .ok "MIDDLEWEIGHT" ↔
      166 ≤ (150 : Int) ∧ (150 : Int) ≤ 202)
  ∧ (get_weight_class 150 = .ok "LIGHTWEIGHT" ↔
      133 ≤ (150 : Int) ∧ (150 : Int) ≤ 165)
  ∧ (get_weight_class 150 = .ok "FEATHERWEIGHT" ↔
      125 ≤ (150 : Int) ∧ (150 : Int) ≤ 132)
  ∧ (get_weight_class 150 = .error (.invalidWeightClass 150) ↔
      (150 : Int) < 125)
  ∧ ((∃ s, get_weight_class 150 = .ok s) ↔ 125 ≤ (150 : Int)) :=
  c1_get_weight_class_bands 150

/-- Witness for C4 at weight 124 (the first check fires) on the sample
store. -/
theorem c4_create_boxer_validation_witness :
    (create_boxer sampleDb "Bob" 124 70 72 30 = .error (.invalidWeight 124) ↔
      (124 : Int) < 125)
  ∧ (create_boxer sampleDb "Bob" 124 70 72 30 = .error (.invalidHeight 70) ↔
      125 ≤ (124 : Int) ∧ (70 : Int) ≤ 0)
  ∧ (create_boxer sampleDb "Bob" 124 70 72 30 = .error (.invalidReach 72) ↔
      125 ≤ (124 : Int) ∧ 0 < (70 : Int) ∧ (72 : ℚ) ≤ 0)
  ∧ (create_boxer sampleDb "Bob" 124 70 72 30 = .error (.invalidAge 30) ↔
      125 ≤ (124 : Int) ∧ 0 < (70 : Int) ∧ 0 < (72 : ℚ) ∧
        ((30 : Int) < 18 ∨ 40 < (30 : Int)))
  ∧ ((create_boxer sampleDb "Bob" 124 70 72 30 = .error (.invalidWeight 124)
      ∨ create_boxer sampleDb "Bob" 124 70 72 30 = .error (.invalidHeight 70)
      ∨ create_boxer sampleDb "Bob" 124 70 72 30 = .error (.invalidReach 72)
      ∨ create_boxer sampleDb "Bob" 124 70 72 30 = .error (.invalidAge 30))
      ↔ ((124 : Int) < 125 ∨ (70 : Int) ≤ 0 ∨ (72 : ℚ) ≤ 0 ∨
          (30 : Int) < 18 ∨ 40 < (30 : Int)))
  ∧ (((124 : Int) < 125 ∨ (70 : Int) ≤ 0 ∨ (72 : ℚ) ≤ 0 ∨
        (30 : Int) < 18 ∨ 40 < (30 : Int)) →
      create_boxer sampleDb "Bob" 124 70 72 30 =
        create_boxer Db.empty "Bob" 124 70 72 30) :=
  c4_create_boxer_validation sampleDb Db.empty "Bob" 124 70 72 30

/-- Witness for C9 on the sample store at id 1. -/
theorem c9_delete_boxer_witness :
    ((∀ r ∈ sampleDb.rows, r.id ≠ 1) →
      delete_boxer sampleDb 1 = .error (.idNotFound 1))
  ∧ (∀ row ∈ sampleDb.rows, row.id = 1 →
      ∃ db', delete_boxer sampleDb 1 = .ok db'
        ∧ db'.nextId = sampleDb.nextId
        ∧ (∀ r ∈ db'.rows, r ∈ sampleDb.rows ∧ r.id ≠ 1)
        ∧ (∀ r ∈ sampleDb.rows, r.id ≠ 1 → r ∈ db'.rows)
        ∧ delete_boxer db' 1 = .error (.idNotFound 1)
        ∧ get_boxer_by_id db' 1 = .error (.idNotFound 1))
  ∧ (∀ (name : String) (w h : Int) (rch : ℚ) (a : Int) (db₁ : Db),
      create_boxer sampleDb name w h rch a = .ok db₁ →
      ∃ db₂, delete_boxer db₁ sampleDb.nextId = .ok db₂
        ∧ get_boxer_by_id db₂ sampleDb.nextId =
            .error (.idNotFound sampleDb.nextId)) :=
  c9_delete_boxer sampleDb 1

/-- C5: when a stored row already carries the requested name (and the
field validations pass), `create_boxer` fails with the "already exists"
error via the pre-insert lookup; the except-clause translates an
`IntegrityError` raised by the insert into that very same error value;
and any other sqlite error is propagated unchanged. -/
theorem c5_create_boxer_conflict (db : Db) (name : String) (w h : Int)
    (rch : ℚ) (a : Int) (row : BoxerRow) (msg : String)
    (hw : 125 ≤ w) (hh : 0 < h) (hr : 0 < rch) (ha : 18 ≤ a ∧ a ≤ 40)
    (hrow : row ∈ db.rows) (hname : row.name = name) :
    create_boxer db name w h rch a = .error (.alreadyExists name)
  ∧ create_boxer_except name .integrityError = .alreadyExists name
  ∧ create_boxer_except name (.operationalError msg) =
      .sqliteError (.operationalError msg) := by
  have hany : db.rows.any (fun r => decide (r.name = name)) = true := by
    rw [List.any_eq_true]
    exact ⟨row, hrow, by simp [hname]⟩
  refine ⟨?_, rfl, rfl⟩
  unfold create_boxer
  rw [if_neg (by omega), if_neg (by omega), if_neg (not_le.mpr hr),
    if_neg (not_not_intro ha), if_pos hany]

/-- Witness for C5: creating a second "Ali" on the sample store. -/
theorem c5_create_boxer_conflict_witness :
    create_boxer sampleDb "Ali" 130 60 65 25 = .error (.alreadyExists "Ali")
  ∧ create_boxer_except "Ali" .integrityError = .alreadyExists "Ali"
  ∧ create_boxer_except "Ali" (.operationalError "disk I/O error") =
      .sqliteError (.operationalError "disk I/O error") :=
  c5_create_boxer_conflict sampleDb "Ali" 130 60 65 25 sampleRow
    "disk I/O error" (by norm_num) (by norm_num) (by norm_num)
    (by norm_num) (by simp [sampleDb]) rfl

/-- The classifier succeeds on every weight of at least 125. -/
theorem get_weight_class_ok_of_le {w : Int} (hw : 125 ≤ w) :
    ∃ s, get_weight_class w = .ok s := by
  unfold get_weight_class
  split_ifs <;> simp_all

/-- C8: after a successful create on a well-formed store (every stored
id is below the next rowid, as sqlite guarantees), fetching the new id
and fetching the given name both return the same `Boxer`, carrying
exactly the created name/weight/height/reach/age, and its weight_class
is the classifier applied to that weight. -/
theorem c8_create_roundtrip (db : Db) (name : String) (w h : Int)
    (rch : ℚ) (a : Int) (db' : Db)
    (hwf : ∀ r ∈ db.rows, r.id < db.nextId)
    (hc : create_boxer db name w h rch a = .ok db') :
    ∃ b : Boxer,
      get_boxer_by_id db' db.nextId = .ok b
    ∧ get_boxer_by_name db' name = .ok b
    ∧ b.id = db.nextId ∧ b.name = name ∧ b.weight = w ∧ b.height = h
    ∧ b.reach = rch ∧ b.age = a
    ∧ get_weight_class w = .ok b.weight_class := by
  obtain ⟨hrows, hnext, hw, hnames⟩ := create_boxer_ok_shape hc
  obtain ⟨wc, hwc⟩ := get_weight_class_ok_of_le hw
  have hfid : db'.rows.find? (fun r => decide (r.id = db.nextId)) =
      some ⟨db.nextId, name, w, h, rch, a, 0, 0⟩ := by
    rw [hrows, List.find?_append]
    have h1 : db.rows.find? (fun r => decide (r.id = db.nextId)) = none := by
      rw [List.find?_eq_none]
      intro r hr
      have := hwf r hr
      simp
      omega
    rw [h1]
    simp
  have hfnm : db'.rows.find? (fun r => decide (r.name = name)) =
      some ⟨db.nextId, name, w, h, rch, a, 0, 0⟩ := by
    rw [hrows, List.find?_append]
    have h1 : db.rows.find? (fun r => decide (r.name = name)) = none := by
      rw [List.find?_eq_none]
      intro r hr
      simpa using hnames r hr
    rw [h1]
    simp
  refine ⟨⟨db.nextId, name, w, h, rch, a, wc⟩, ?_, ?_, rfl, rfl, rfl, rfl,
    rfl, rfl, by simpa using hwc⟩
  · simp only [get_boxer_by_id]
    rw [hfid]
    simp only [Boxer.make]
    rw [hwc]
    rfl
  · simp only [get_boxer_by_name]
    rw [hfnm]
    simp only [Boxer.make]
    rw [hwc]
    rfl

/-- Witness for C8: create "Bob" on the sample store and fetch him back. -/
theorem c8_create_roundtrip_witness :
    ∃ b : Boxer,
      get_boxer_by_id
        ⟨sampleDb.rows ++ [⟨2, "Bob", 210, 75, 80, 33, 0, 0⟩], 3⟩ 2 = .ok b
    ∧ get_boxer_by_name
        ⟨sampleDb.rows ++ [⟨2, "Bob", 210, 75, 80, 33, 0, 0⟩], 3⟩ "Bob" = .ok b
    ∧ b.id = 2 ∧ b.name = "Bob" ∧ b.weight = 210 ∧ b.height = 75
    ∧ b.reach = 80 ∧ b.age = 33
    ∧ get_weight_class 210 = .ok b.weight_class :=
  c8_create_roundtrip sampleDb "Bob" 210 75 80 33
    ⟨sampleDb.rows ++ [(⟨2, "Bob", 210, 75, 80, 33, 0, 0⟩ : BoxerRow)], 3⟩
    (by decide) (by rfl)

/-- C10: `Boxer.__post_init__` always recomputes weight_class from
weight, so fetching an existing stored row whose weight is below 125 —
whether by id or by name — fails with the classifier's invalid-weight
validation error, which is a different error from not-found: the fetch
of an existing boxer can fail. -/
theorem c10_fetch_low_weight_fails (db : Db) (i : Nat) (nm : String)
    (row : BoxerRow)
    (hfid : db.rows.find? (fun r => decide (r.id = i)) = some row)
    (hfnm : db.rows.find? (fun r => decide (r.name = nm)) = some row)
    (hw : row.weight < 125) :
    get_boxer_by_id db i = .error (.invalidWeightClass row.weight)
  ∧ get_boxer_by_name db nm = .error (.invalidWeightClass row.weight)
  ∧ Err.invalidWeightClass row.weight ≠ .idNotFound i
  ∧ Err.invalidWeightClass row.weight ≠ .nameNotFound nm := by
  have hgw : get_weight_class row.weight =
      .error (.invalidWeightClass row.weight) := by
    unfold get_weight_class
    rw [if_neg (by omega), if_neg (by omega), if_neg (by omega),
      if_neg (by omega)]
  refine ⟨?_, ?_, by simp, by simp⟩
  · simp only [get_boxer_by_id]
    rw [hfid]
    simp only [Boxer.make]
    rw [hgw]
    rfl
  · simp only [get_boxer_by_name]
    rw [hfnm]
    simp only [Boxer.make]
    rw [hgw]
    rfl

/-- A store holding an (externally seeded) row whose weight is below
125; `create_boxer` could never have inserted it. -/
def lowDb : Db := ⟨[⟨1, "Sam", 100, 60, 60, 25, 0, 0⟩], 2⟩

/-- Witness for C10 on `lowDb`. -/
theorem c10_fetch_low_weight_fails_witness :
    get_boxer_by_id lowDb 1 = .error (.invalidWeightClass 100)
  ∧ get_boxer_by_name lowDb "Sam" = .error (.invalidWeightClass 100)
  ∧ Err.invalidWeightClass 100 ≠ .idNotFound 1
  ∧ Err.invalidWeightClass 100 ≠ .nameNotFound "Sam" :=
  c10_fetch_low_weight_fails lowDb 1 "Sam"
    ⟨1, "Sam", 100, 60, 60, 25, 0, 0⟩ (by rfl) (by rfl) (by norm_num)

/-- Fields of a successfully built leaderboard dictionary: every field
is copied from the row, the weight class is the classifier's output on
the row's weight, and win_pct is the rounded percentage. -/
theorem mkEntry_ok_fields {r : BoxerRow} {e : LeaderboardEntry}
    (h : mkEntry r = .ok e) :
    e.id = r.id ∧ e.name = r.name ∧ e.weight = r.weight
  ∧ e.height = r.height ∧ e.reach = r.reach ∧ e.age = r.age
  ∧ get_weight_class r.weight = .ok e.weight_class
  ∧ e.fights = r.fights ∧ e.wins = r.wins
  ∧ e.win_pct = round1 (winPct r * 100) := by
  unfold mkEntry at h
  cases hg : get_weight_class r.weight with
  | error err => rw [hg] at h; simp at h
  | ok wc =>
    rw [hg] at h
    rw [Except.ok.injEq] at h
    subst h
    simp

/-- Every entry produced by the loop comes from a processed row. -/
theorem buildEntries_mem_left {l : List BoxerRow}
    {es : List LeaderboardEntry} (h : buildEntries l = .ok es) :
    ∀ e ∈ es, ∃ r ∈ l, mkEntry r = .ok e := by
  induction l generalizing es with
  | nil =>
    unfold buildEntries at h
    rw [Except.ok.injEq] at h
    subst h
    simp
  | cons r rs ih =>
    unfold buildEntries at h
    cases hm : mkEntry r with
    | error e0 => rw [hm] at h; simp at h
    | ok e0 =>
      rw [hm] at h
      cases hb : buildEntries rs with
      | error e2 => rw [hb] at h; simp at h
      | ok es' =>
        rw [hb] at h
        rw [Except.ok.injEq] at h
        subst h
        intro e he
        rcases List.mem_cons.mp he with rfl | he'
        · exact ⟨r, List.mem_cons_self r rs, hm⟩
        · obtain ⟨r', hr', hre⟩ := ih hb e he'
          exact ⟨r', List.mem_cons_of_mem r hr', hre⟩

/-- Every processed row yields an entry of the loop's output. -/
theorem buildEntries_mem_right {l : List BoxerRow}
    {es : List LeaderboardEntry} (h : buildEntries l = .ok es) :
    ∀ r ∈ l, ∃ e ∈ es, mkEntry r = .ok e := by
  induction l generalizing es with
  | nil => simp
  | cons r rs ih =>
    unfold buildEntries at h
    cases hm : mkEntry r with
    | error e0 => rw [hm] at h; simp at h
    | ok e0 =>
      rw [hm] at h
      cases hb : buildEntries rs with
      | error e2 => rw [hb] at h; simp at h
      | ok es' =>
        rw [hb] at h
        rw [Except.ok.injEq] at h
        subst h
        intro r' hr'
        rcases List.mem_cons.mp hr' with rfl | hr''
        · exact ⟨e0, List.mem_cons_self e0 es', hm⟩
        · obtain ⟨e, he, hre⟩ := ih hb r' hr''
          exact ⟨e, List.mem_cons_of_mem e0 he, hre⟩

/-- The loop preserves a pairwise relation along `mkEntry`. -/
theorem buildEntries_pairwise {R : BoxerRow → BoxerRow → Prop}
    {S : LeaderboardEntry → LeaderboardEntry → Prop}
    (hRS : ∀ r e r' e', mkEntry r = .ok e → mkEntry r' = .ok e' →
      R r r' → S e e')
    {l : List BoxerRow} {es : List LeaderboardEntry}
    (h : buildEntries l = .ok es) (hp : l.Pairwise R) :
    es.Pairwise S := by
  induction l generalizing es with
  | nil =>
    unfold buildEntries at h
    rw [Except.ok.injEq] at h
    subst h
    exact List.Pairwise.nil
  | cons r rs ih =>
    unfold buildEntries at h
    cases hm : mkEntry r with
    | error e0 => rw [hm] at h; simp at h
    | ok e0 =>
      rw [hm] at h
      cases hb : buildEntries rs with
      | error e2 => rw [hb] at h; simp at h
      | ok es' =>
        rw [hb] at h
        rw [Except.ok.injEq] at h
        subst h
        rw [List.pairwise_cons] at hp
        refine List.Pairwise.cons ?_ (ih hb hp.2)
        intro e' he'
        obtain ⟨r', hr', hre⟩ := buildEntries_mem_left hb e' he'
        exact hRS r e0 r' e' hm hre (hp.1 r' hr')

/-- `insertionSort` with the descending-by-key relation sorts
descending by the key. -/
theorem insertionSort_desc_sorted (key : BoxerRow → ℚ)
    (l : List BoxerRow) :
    (l.insertionSort (descBy key)).Pairwise (descBy key) := by
  have ht : IsTotal BoxerRow (descBy key) :=
    ⟨fun a b => le_total (key b) (key a)⟩
  have htr : IsTrans BoxerRow (descBy key) :=
    ⟨fun a b c hab hbc => le_trans hbc hab⟩
  exact @List.sorted_insertionSort BoxerRow (descBy key) _ ht htr l

/-- Membership in the built leaderboard, for any sort key: exactly the
rows with at least one fight contribute an entry. -/
theorem leaderboard_mem_core {rows : List BoxerRow} {key : BoxerRow → ℚ}
    {es : List LeaderboardEntry}
    (h : buildEntries
        ((rows.filter (fun r => decide (0 < r.fights))).insertionSort
          (descBy key)) = .ok es) :
    (∀ r ∈ rows, 0 < r.fights → ∃ e ∈ es, mkEntry r = .ok e)
  ∧ (∀ e ∈ es, ∃ r ∈ rows, 0 < r.fights ∧ mkEntry r = .ok e) := by
  constructor
  · intro r hr hf
    have hrf : r ∈ rows.filter (fun r => decide (0 < r.fights)) :=
      List.mem_filter.mpr ⟨hr, by simpa using hf⟩
    have hrs : r ∈ (rows.filter (fun r => decide (0 < r.fights))).insertionSort
        (descBy key) :=
      (List.mem_insertionSort _).mpr hrf
    exact buildEntries_mem_right h r hrs
  · intro e he
    obtain ⟨r, hrs, hre⟩ := buildEntries_mem_left h e he
    have hrf := (List.mem_insertionSort _).mp hrs
    obtain ⟨h1, h2⟩ := List.mem_filter.mp hrf
    exact ⟨r, h1, by simpa using h2, hre⟩

/-- C6: whenever `get_leaderboard` returns a list (for either valid
sort key), that list holds one entry per stored boxer with fights > 0 —
every such boxer appears, every entry comes from such a boxer, and each
entry carries the row's id/name/weight/height/reach/age, the classifier
weight class, the row's fights and wins, and the rounded win
percentage (`mkEntry`). -/
theorem c6_get_leaderboard_membership (db : Db) (s : String)
    (lb : List LeaderboardEntry)
    (hs : s = "wins" ∨ s = "win_pct")
    (hok : get_leaderboard db s = .ok lb) :
    (∀ r ∈ db.rows, 0 < r.fights → ∃ e ∈ lb, mkEntry r = .ok e)
  ∧ (∀ e ∈ lb, ∃ r ∈ db.rows, 0 < r.fights ∧ mkEntry r = .ok e) := by
  rcases hs with rfl | rfl
  · unfold get_leaderboard at hok
    rw [if_neg (by simp)] at hok
    rw [if_neg (by decide)] at hok
    exact leaderboard_mem_core hok
  · unfold get_leaderboard at hok
    rw [if_neg (by simp)] at hok
    rw [if_pos rfl] at hok
    exact leaderboard_mem_core hok

/-- A store with one boxer with fights (Ali, 3 fights 2 wins) and one
without (Bob). -/
def lbDb : Db :=
  ⟨[⟨1, "Ali", 150, 70, 72, 30, 3, 2⟩, ⟨2, "Bob", 210, 75, 80, 33, 0, 0⟩], 3⟩

/-- Witness for C6 on `lbDb` sorted by wins: only Ali appears. -/
theorem c6_get_leaderboard_membership_witness :
    (∀ r ∈ lbDb.rows, 0 < r.fights →
      ∃ e ∈ [(⟨1, "Ali", 150, 70, 72, 30, "LIGHTWEIGHT", 3, 2,
        (667 : ℚ) / 10⟩ : LeaderboardEntry)], mkEntry r = .ok e)
  ∧ (∀ e ∈ [(⟨1, "Ali", 150, 70, 72, 30, "LIGHTWEIGHT", 3, 2,
        (667 : ℚ) / 10⟩ : LeaderboardEntry)],
      ∃ r ∈ lbDb.rows, 0 < r.fights ∧ mkEntry r = .ok e) :=
  c6_get_leaderboard_membership lbDb "wins"
    [⟨1, "Ali", 150, 70, 72, 30, "LIGHTWEIGHT", 3, 2, (667 : ℚ) / 10⟩]
    (Or.inl rfl) (by
      have hr1 : round1 (winPct ⟨1, "Ali", 150, 70, 72, 30, 3, 2⟩ * 100) =
          (667 : ℚ) / 10 := by
        norm_num [round1, winPct, round_eq]
      unfold get_leaderboard
      rw [if_neg (by decide), if_neg (by decide)]
      norm_num [lbDb, List.filter, List.insertionSort, List.orderedInsert,
        buildEntries, mkEntry, get_weight_class, hr1])

/-- C7: `get_leaderboard` on an unrecognized sort key fails with the
invalid-sort validation error regardless of the store (the check runs
before any storage access); with sort key "wins" the returned entries
are in non-increasing order of wins, and with "win_pct" in
non-increasing order of wins/fights. -/
theorem c7_get_leaderboard_order (db : Db) (s : String)
    (lb lbp : List LeaderboardEntry)
    (hs : ¬ (s = "wins" ∨ s = "win_pct")) :
    get_leaderboard db s = .error (.invalidSortBy s)
  ∧ (∀ db2 : Db, get_leaderboard db2 s = get_leaderboard db s)
  ∧ (get_leaderboard db "wins" = .ok lb →
      lb.Pairwise (fun a b => b.wins ≤ a.wins))
  ∧ (get_leaderboard db "win_pct" = .ok lbp →
      lbp.Pairwise (fun a b =>
        (b.wins : ℚ) / (b.fights : ℚ) ≤ (a.wins : ℚ) / (a.fights : ℚ))) := by
  have hcond : ¬ (s = "win_pct" ∨ s = "wins") := by tauto
  refine ⟨?_, ?_, ?_, ?_⟩
  · unfold get_leaderboard
    rw [if_pos hcond]
  · intro db2
    unfold get_leaderboard
    rw [if_pos hcond, if_pos hcond]
  · intro hok
    unfold get_leaderboard at hok
    rw [if_neg (by simp)] at hok
    rw [if_neg (by decide)] at hok
    have hsorted := insertionSort_desc_sorted (fun r => (r.wins : ℚ))
      (db.rows.filter (fun r => decide (0 < r.fights)))
    refine buildEntries_pairwise ?_ hok hsorted
    intro r e r' e' hm hm' hR
    obtain ⟨-, -, -, -, -, -, -, -, hwi, -⟩ := mkEntry_ok_fields hm
    obtain ⟨-, -, -, -, -, -, -, -, hwi', -⟩ := mkEntry_ok_fields hm'
    have hcast : (r'.wins : ℚ) ≤ (r.wins : ℚ) := hR
    rw [hwi, hwi']
    exact_mod_cast hcast
  · intro hok
    unfold get_leaderboard at hok
    rw [if_neg (by simp)] at hok
    rw [if_pos rfl] at hok
    have hsorted := insertionSort_desc_sorted winPct
      (db.rows.filter (fun r => decide (0 < r.fights)))
    refine buildEntries_pairwise ?_ hok hsorted
    intro r e r' e' hm hm' hR
    obtain ⟨-, -, -, -, -, -, -, hfi, hwi, -⟩ := mkEntry_ok_fields hm
    obtain ⟨-, -, -, -, -, -, -, hfi', hwi', -⟩ := mkEntry_ok_fields hm'
    have hple : winPct r' ≤ winPct r := hR
    rw [hwi, hwi', hfi, hfi']
    simpa [winPct] using hple

/-- Witness for C7 with the unrecognized sort key "fights". -/
theorem c7_get_leaderboard_order_witness :
    get_leaderboard sampleDb "fights" = .error (.invalidSortBy "fights")
  ∧ (∀ db2 : Db,
      get_leaderboard db2 "fights" = get_leaderboard sampleDb "fights")
  ∧ (get_leaderboard sampleDb "wins" = .ok [] →
      List.Pairwise (fun a b => b.wins ≤ a.wins)
        ([] : List LeaderboardEntry))
  ∧ (get_leaderboard sampleDb "win_pct" = .ok [] →
      List.Pairwise (fun a b =>
          (b.wins : ℚ) / (b.fights : ℚ) ≤ (a.wins : ℚ) / (a.fights : ℚ))
        ([] : List LeaderboardEntry)) :=
  c7_get_leaderboard_order sampleDb "fights" [] [] (by decide)
